import Mathlib

/-!
Shallow embedding of the camera-control and spot-light code of this
repository (src/src/scene/lighting/SpotLight.js).  The file defines two
classes:

* `SpotLight` — a positional light source; the relevant slice here is the
  `castShadow` setter and its dirty/redraw/event side effects.
* `CameraControl` — the camera navigation controller facade; the relevant
  slice is the `_configs` option table, the `_updates` pending-delta
  accumulator, the `_reset` routine and the configuration setters.

JavaScript values and their truthiness are modelled explicitly, machine
numbers are modelled as exact rationals (no float rounding is relevant to
the properties proved here), and each setter is translated line by line
from the source.  Components of the repository that are imported by the
source file but whose code is not part of it (the pivot controller, the
camera updater's inertia loop, the tap classifier in the pick handlers)
are modelled from the specification and marked as such in their doc
comments.
-/

/-- A JavaScript value as far as the boolean coercions in the source
distinguish them: `undefined`, `null`, a boolean, a number (NaN kept
separate), or a string. -/
inductive JSVal where
  | undef : JSVal
  | null : JSVal
  | bool (b : Bool) : JSVal
  | num (q : ℚ) : JSVal
  | nan : JSVal
  | str (s : String) : JSVal
deriving DecidableEq

/-- JavaScript truthiness, as used by the `!!value` coercion in the
source: `undefined`, `null`, `false`, `0`, `NaN` and the empty string are
falsy, everything else is truthy. -/
def jsTruthy : JSVal → Bool
  | .undef => false
  | .null => false
  | .bool b => b
  | .num q => decide (q ≠ 0)
  | .nan => false
  | .str s => decide (s ≠ "")

/-- The `value !== false` coercion used by the `active`, `doublePickFlyTo`
and `panRightClick` setters: every value other than the exact boolean
`false` maps to `true`. -/
def jsStrictNeqFalse : JSVal → Bool
  | .bool false => false
  | _ => true

/-- A JavaScript value in a numeric position, as far as the `value || d`
and `value === undefined` tests in the numeric setters distinguish them. -/
inductive JSNum where
  | undef : JSNum
  | null : JSNum
  | nan : JSNum
  | num (q : ℚ) : JSNum
deriving DecidableEq

/-- Truthiness of a numeric value: only a nonzero number is truthy. -/
def jsNumTruthy : JSNum → Bool
  | .num q => decide (q ≠ 0)
  | _ => false

def qwerty : String := "qwerty"

def azerty : String := "azerty"

/-- The user-settable configuration table `CameraControl._configs`, with
the default values given by the object literal in the constructor. -/
structure Configs where
  active : Bool := true
  tapInterval : ℚ := 150
  doubleTapInterval : ℚ := 325
  tapDistanceThreshold : ℚ := 4
  mousePanRate : ℚ := 1/10
  keyboardPanRate : ℚ := 1/50
  keyboardOrbitRate : ℚ := 1/50
  touchRotateRate : ℚ := 3/10
  touchPanRate : ℚ := 1/5
  touchZoomRate : ℚ := 1/5
  dollyRate : ℚ := 10
  planView : Bool := false
  firstPerson : Bool := false
  constrainVertical : Bool := false
  doublePickFlyTo : Bool := true
  panRightClick : Bool := true
  pivoting : Bool := false
  dollyToPointer : Bool := false
  dollyToPivot : Bool := false
  rotationInertia : ℚ := 0
  dollyInertia : ℚ := 0
  pointerEnabled : Bool := true
  keyboardLayout : String := qwerty
deriving DecidableEq

/-- The pending camera-delta accumulator `CameraControl._updates`.  The
extra field `dolyDelta` models the dynamically created property that the
misspelled assignment `this._updates.dolyDelta = 0` in `_reset` writes;
it is absent (`none`) until that assignment first runs. -/
structure Updates where
  rotateDeltaX : ℚ := 0
  rotateDeltaY : ℚ := 0
  panDeltaX : ℚ := 0
  panDeltaY : ℚ := 0
  panDeltaZ : ℚ := 0
  dollyDelta : ℚ := 0
  dolyDelta : Option ℚ := none
deriving DecidableEq

/-- Modelled from the spec: `PivotState` is one of
`{Inactive, Shown, Dragging}` (the pivot controller's code lives in
lib/controllers/PivotController.js, which is not part of this source
file). -/
inductive PivotState where
  | Inactive : PivotState
  | Shown : PivotState
  | Dragging : PivotState
deriving DecidableEq

/-- Modelled from the spec: the pivot controller's observable state — the
pivot state machine and the visibility of the pivot indicator element. -/
structure PivotCtl where
  state : PivotState := .Inactive
  indicatorVisible : Bool := false
deriving DecidableEq

/-- Modelled from the spec: `hidePivot()` hides the pivot indicator. -/
def hidePivot (p : PivotCtl) : PivotCtl :=
  { p with indicatorVisible := false }

/-- Modelled from the spec: `endPivot()` ends pivoting, returning the
pivot state machine to `Inactive`. -/
def endPivot (p : PivotCtl) : PivotCtl :=
  { p with state := .Inactive }

/-- The observable state of a `CameraControl`: its configuration table,
its pending-update accumulator, the pivot controller it owns, and a count
of warning messages logged via `this.error(...)`. -/
structure CCState where
  configs : Configs := {}
  updates : Updates := {}
  pivot : PivotCtl := {}
  warnings : ℕ := 0
deriving DecidableEq

/-- The state of a freshly constructed `CameraControl`, after the field
initializers of the constructor. -/
def initCCState : CCState := {}

/-- The effect of `CameraControl._reset()` on the `_updates` accumulator,
assignment by assignment: it zeroes `panDeltaX`, `panDeltaY`,
`rotateDeltaX` and `rotateDeltaY`, and then executes the misspelled
assignment `this._updates.dolyDelta = 0`, which creates/overwrites a
property named `dolyDelta` and leaves `dollyDelta` (and `panDeltaZ`)
untouched. -/
def resetUpdates (u : Updates) : Updates :=
  { u with panDeltaX := 0, panDeltaY := 0, rotateDeltaX := 0,
           rotateDeltaY := 0, dolyDelta := some 0 }

/-- `CameraControl._reset()`.  The loop over `this._handlers` calling each
handler's `reset()` touches handler-internal state only (the handler
classes live under lib/handlers and are not part of this source file);
the effect on the state modelled here is the `_updates` assignments. -/
def resetCC (s : CCState) : CCState :=
  { s with updates := resetUpdates s.updates }

/-- `set active(value)`: calls `this._reset()` and then stores
`value !== false`. -/
def set_active (v : JSVal) (s : CCState) : CCState :=
  let s' := resetCC s
  { s' with configs := { s'.configs with active := jsStrictNeqFalse v } }

/-- `set pointerEnabled(value)`: calls `this._reset()` and then stores
`!!value`. -/
def set_pointerEnabled (v : JSVal) (s : CCState) : CCState :=
  let s' := resetCC s
  { s' with configs := { s'.configs with pointerEnabled := jsTruthy v } }

/-- `set pivoting(value)`: stores `!!value`. -/
def set_pivoting (v : JSVal) (s : CCState) : CCState :=
  { s with configs := { s.configs with pivoting := jsTruthy v } }

/-- `set dollyToPointer(value)`: stores `!!value`, then if the stored
value is true also clears `dollyToPivot`. -/
def set_dollyToPointer (v : JSVal) (s : CCState) : CCState :=
  let c := { s.configs with dollyToPointer := jsTruthy v }
  if c.dollyToPointer then { s with configs := { c with dollyToPivot := false } }
  else { s with configs := c }

/-- `set dollyToPivot(value)`: stores `!!value`, then if the stored value
is true also clears `dollyToPointer`. -/
def set_dollyToPivot (v : JSVal) (s : CCState) : CCState :=
  let c := { s.configs with dollyToPivot := jsTruthy v }
  if c.dollyToPivot then { s with configs := { c with dollyToPointer := false } }
  else { s with configs := c }

/-- `set planView(value)`: stores `!!value`. -/
def set_planView (v : JSVal) (s : CCState) : CCState :=
  { s with configs := { s.configs with planView := jsTruthy v } }

/-- `set firstPerson(value)`: stores `!!value`, then if the stored value
is true calls `pivotController.hidePivot()` and
`pivotController.endPivot()`. -/
def set_firstPerson (v : JSVal) (s : CCState) : CCState :=
  let c := { s.configs with firstPerson := jsTruthy v }
  if c.firstPerson then { s with configs := c, pivot := endPivot (hidePivot s.pivot) }
  else { s with configs := c }

/-- `set constrainVertical(value)`: stores `!!value`. -/
def set_constrainVertical (v : JSVal) (s : CCState) : CCState :=
  { s with configs := { s.configs with constrainVertical := jsTruthy v } }

/-- `set doublePickFlyTo(value)`: stores `value !== false`. -/
def set_doublePickFlyTo (v : JSVal) (s : CCState) : CCState :=
  { s with configs := { s.configs with doublePickFlyTo := jsStrictNeqFalse v } }

/-- `set panRightClick(value)`: stores `value !== false`. -/
def set_panRightClick (v : JSVal) (s : CCState) : CCState :=
  { s with configs := { s.configs with panRightClick := jsStrictNeqFalse v } }

/-- `set rotationInertia(value)`: stores `value === undefined ? 0.5 :
value` (the setter is only meaningfully called with a number or
`undefined`, so the argument is modelled as `Option ℚ`). -/
def set_rotationInertia (v : Option ℚ) (s : CCState) : CCState :=
  { s with configs := { s.configs with rotationInertia := v.getD (1/2) } }

/-- `set dollyInertia(value)`: stores `value === undefined ? 0.5 :
value`. -/
def set_dollyInertia (v : Option ℚ) (s : CCState) : CCState :=
  { s with configs := { s.configs with dollyInertia := v.getD (1/2) } }

/-- The value stored by `set dollyRate(dollyRate)`, namely
`dollyRate || 10.0`: a nonzero number passes through, every falsy value
(`undefined`, `null`, `NaN`, `0`) is replaced by the default `10.0`. -/
def dollyRateValue : JSNum → ℚ
  | .num q => if q ≠ 0 then q else 10
  | _ => 10

/-- `set dollyRate(dollyRate)`: stores `dollyRate || 10.0`. -/
def set_dollyRate (v : JSNum) (s : CCState) : CCState :=
  { s with configs := { s.configs with dollyRate := dollyRateValue v } }

/-- The `value = value || "qwerty"` normalization at the top of
`set keyboardLayout`: `undefined`/`null` (modelled as `none`) and the
empty string are falsy and become `"qwerty"`. -/
def jsOrQwerty : Option String → String
  | none => qwerty
  | some t => if t = "" then qwerty else t

/-- Whether the argument of `set keyboardLayout` is falsy, i.e. swallowed
by the `value || "qwerty"` normalization before the validity test runs. -/
def kbFalsy : Option String → Bool
  | none => true
  | some t => decide (t = "")

/-- `set keyboardLayout(value)`: normalizes with `value || "qwerty"`,
then if the result is neither `"qwerty"` nor `"azerty"` logs an error and
substitutes `"qwerty"`; finally stores the value. -/
def set_keyboardLayout (v : Option String) (s : CCState) : CCState :=
  let v1 := jsOrQwerty v
  if v1 ≠ qwerty ∧ v1 ≠ azerty then
    { s with configs := { s.configs with keyboardLayout := qwerty },
             warnings := s.warnings + 1 }
  else
    { s with configs := { s.configs with keyboardLayout := v1 } }

/-- One call to a configuration setter of `CameraControl`, with its
argument. -/
inductive SetterCall where
  | sActive (v : JSVal)
  | sPointerEnabled (v : JSVal)
  | sPivoting (v : JSVal)
  | sDollyToPointer (v : JSVal)
  | sDollyToPivot (v : JSVal)
  | sPlanView (v : JSVal)
  | sFirstPerson (v : JSVal)
  | sConstrainVertical (v : JSVal)
  | sDoublePickFlyTo (v : JSVal)
  | sPanRightClick (v : JSVal)
  | sRotationInertia (v : Option ℚ)
  | sDollyInertia (v : Option ℚ)
  | sDollyRate (v : JSNum)
  | sKeyboardLayout (v : Option String)
deriving DecidableEq

/-- Dispatch of a configuration setter call to its translation. -/
def applySetter : SetterCall → CCState → CCState
  | .sActive v, s => set_active v s
  | .sPointerEnabled v, s => set_pointerEnabled v s
  | .sPivoting v, s => set_pivoting v s
  | .sDollyToPointer v, s => set_dollyToPointer v s
  | .sDollyToPivot v, s => set_dollyToPivot v s
  | .sPlanView v, s => set_planView v s
  | .sFirstPerson v, s => set_firstPerson v s
  | .sConstrainVertical v, s => set_constrainVertical v s
  | .sDoublePickFlyTo v, s => set_doublePickFlyTo v s
  | .sPanRightClick v, s => set_panRightClick v s
  | .sRotationInertia v, s => set_rotationInertia v s
  | .sDollyInertia v, s => set_dollyInertia v s
  | .sDollyRate v, s => set_dollyRate v s
  | .sKeyboardLayout v, s => set_keyboardLayout v s

/-- Applying a list of setter calls in order. -/
def applySetters (calls : List SetterCall) (s : CCState) : CCState :=
  List.foldl (fun t c => applySetter c t) s calls

/-- The `dollyToPointer`/`dollyToPivot` flags are not both set. -/
def dollyExclusive (s : CCState) : Prop :=
  ¬ (s.configs.dollyToPointer = true ∧ s.configs.dollyToPivot = true)

instance (s : CCState) : Decidable (dollyExclusive s) := by
  unfold dollyExclusive; infer_instance

/-- The observable state of a `SpotLight` relevant to the `castShadow`
setter: the stored flag, the shadow view-matrix dirty flag, and counters
of `glRedraw()` requests and fired `"dirty"` events. -/
structure SpotState where
  castShadow : Bool := false
  shadowViewMatrixDirty : Bool := true
  redrawCount : ℕ := 0
  dirtyEvents : ℕ := 0
deriving DecidableEq

/-- A freshly initialized `SpotLight`: `_state.castShadow` starts `false`
and `_shadowViewMatrixDirty` starts `true`. -/
def initSpot : SpotState := {}

/-- `SpotLight.set castShadow(value)`: coerces with `!!value`; if the
coerced value equals the stored one, returns immediately; otherwise
stores it, marks the shadow view matrix dirty, requests a redraw and
fires a `"dirty"` event. -/
def setCastShadow (v : JSVal) (s : SpotState) : SpotState :=
  let b := jsTruthy v
  if s.castShadow = b then s
  else { s with castShadow := b, shadowViewMatrixDirty := true,
                redrawCount := s.redrawCount + 1,
                dirtyEvents := s.dirtyEvents + 1 }

/-- Modelled from the spec: the tap classifier of the pick handlers
(which live under lib/handlers, outside this source file) — a
press/release pair is a tap iff its displacement in pixels is below
`tapDistanceThreshold` and its duration in milliseconds is below
`tapInterval`; the thresholds are read from the `_configs` table. -/
def isTap (c : Configs) (dispPx elapsedMs : ℚ) : Bool :=
  decide (dispPx < c.tapDistanceThreshold) && decide (elapsedMs < c.tapInterval)

/-- Modelled from the spec: one render tick of the camera updater's
inertia decay with no new input (the updater lives in lib/CameraUpdater.js,
outside this source file) — the residual delta is scaled by the inertia
factor `f`, and zeroed once it falls below the epsilon cutoff `ε`. -/
def inertiaStep (f ε d : ℚ) : ℚ :=
  if |d * f| < ε then 0 else d * f

/-- Modelled from the spec: the residual delta after `n` render ticks of
inertia decay with no new input. -/
def inertiaIter (f ε : ℚ) : ℕ → ℚ → ℚ
  | 0, d => d
  | n + 1, d => inertiaStep f ε (inertiaIter f ε n d)

/-- A `CameraControl` state with pending deltas in every slot of the
`_updates` accumulator, as left by an in-progress drag plus wheel
input. -/
def c1Pending : CCState :=
  { initCCState with
      updates := { rotateDeltaX := 2, rotateDeltaY := 3, panDeltaX := 4,
                   panDeltaY := 5, panDeltaZ := 7, dollyDelta := 6,
                   dolyDelta := none } }

/-- A `CameraControl` state in which `dollyToPivot` is enabled. -/
def c5pre : CCState := { configs := { dollyToPivot := true } }

def dvorak : String := "dvorak"

/-- Claim C1: evaluating the code at the failing input.  Toggling
`active` from `true` to `false` and back to `true` invokes `_reset()`
twice, yet the pending `dollyDelta` and `panDeltaZ` survive unchanged:
`_reset` zeroes only `panDeltaX`, `panDeltaY`, `rotateDeltaX` and
`rotateDeltaY`, and its fifth assignment writes the misspelled property
`dolyDelta` instead of `dollyDelta`, so not every pending camera delta is
left equal to zero. -/
theorem active_toggle_keeps_dolly_delta :
    (set_active (.bool true) (set_active (.bool false) c1Pending)).updates.dollyDelta = 6 ∧
    (set_active (.bool true) (set_active (.bool false) c1Pending)).updates.panDeltaZ = 7 ∧
    (set_active (.bool true) (set_active (.bool false) c1Pending)).updates.rotateDeltaX = 0 ∧
    (set_active (.bool true) (set_active (.bool false) c1Pending)).updates.rotateDeltaY = 0 ∧
    (set_active (.bool true) (set_active (.bool false) c1Pending)).updates.panDeltaX = 0 ∧
    (set_active (.bool true) (set_active (.bool false) c1Pending)).updates.panDeltaY = 0 ∧
    (set_active (.bool true) (set_active (.bool false) c1Pending)).configs.active = true := by
  refine ⟨rfl, rfl, rfl, rfl, rfl, rfl, rfl⟩

-- Each configuration setter preserves the mutual exclusion of the
-- `dollyToPointer` and `dollyToPivot` flags.
theorem applySetter_dollyExclusive (c : SetterCall) (s : CCState)
    (h : dollyExclusive s) : dollyExclusive (applySetter c s) := by
  cases c with
  | sDollyToPointer v =>
    by_cases hv : jsTruthy v = true <;>
      simp_all [applySetter, set_dollyToPointer, dollyExclusive]
  | sDollyToPivot v =>
    by_cases hv : jsTruthy v = true <;>
      simp_all [applySetter, set_dollyToPivot, dollyExclusive]
  | sFirstPerson v =>
    by_cases hv : jsTruthy v = true <;>
      simp_all [applySetter, set_firstPerson, dollyExclusive]
  | sKeyboardLayout v =>
    unfold dollyExclusive at *
    simp only [applySetter, set_keyboardLayout]
    split <;> exact h
  | sActive v => exact h
  | sPointerEnabled v => exact h
  | sPivoting v => exact h
  | sPlanView v => exact h
  | sConstrainVertical v => exact h
  | sDoublePickFlyTo v => exact h
  | sPanRightClick v => exact h
  | sRotationInertia v => exact h
  | sDollyInertia v => exact h
  | sDollyRate v => exact h

/-- Claim C2: the flags `dollyToPointer` and `dollyToPivot` are mutually
exclusive — from any state in which they are not both set, no sequence of
configuration setter calls can make them both true, and setting either
one to a truthy value forces the other to false (in either order). -/
theorem dolly_modes_mutually_exclusive (calls : List SetterCall)
    (s : CCState) (h : dollyExclusive s) :
    dollyExclusive (applySetters calls s) ∧
    (∀ v w, jsTruthy w = true →
      (set_dollyToPivot w (set_dollyToPointer v s)).configs.dollyToPointer = false) ∧
    (∀ v w, jsTruthy w = true →
      (set_dollyToPointer w (set_dollyToPivot v s)).configs.dollyToPivot = false) := by
  refine ⟨?_, ?_, ?_⟩
  · induction calls generalizing s with
    | nil => exact h
    | cons c rest ih =>
      simp only [applySetters, List.foldl] at *
      exact ih (applySetter c s) (applySetter_dollyExclusive c s h)
  · intro v w hw
    simp [set_dollyToPivot, set_dollyToPointer, hw]
  · intro v w hw
    simp [set_dollyToPointer, set_dollyToPivot, hw]

/-- Witness for claim C2 at a concrete input: the fresh state satisfies
the exclusion, and after setting `dollyToPointer = true` then
`dollyToPivot = true` the two flags are still not both set. -/
theorem dolly_modes_mutually_exclusive_witness :
    dollyExclusive initCCState ∧
    dollyExclusive (applySetters
      [SetterCall.sDollyToPointer (.bool true),
       SetterCall.sDollyToPivot (.bool true)] initCCState) :=
  ⟨by decide,
   (dolly_modes_mutually_exclusive
      [SetterCall.sDollyToPointer (.bool true),
       SetterCall.sDollyToPivot (.bool true)] initCCState (by decide)).1⟩

/-- Claim C3: setting `firstPerson` to any truthy value stores `true`,
hides the pivot indicator and ends pivoting, leaving the pivot state
machine `Inactive` — from any prior pivot state. -/
theorem firstPerson_forces_pivot_inactive (v : JSVal) (s : CCState)
    (hv : jsTruthy v = true) :
    (set_firstPerson v s).configs.firstPerson = true ∧
    (set_firstPerson v s).pivot.state = PivotState.Inactive ∧
    (set_firstPerson v s).pivot.indicatorVisible = false := by
  simp [set_firstPerson, hv, endPivot, hidePivot]

/-- Witness for claim C3 at a concrete input: enabling first-person mode
from a state whose pivot machine is `Dragging` with a visible indicator
leaves the pivot machine `Inactive`. -/
theorem firstPerson_forces_pivot_inactive_witness :
    jsTruthy (.bool true) = true ∧
    (set_firstPerson (.bool true)
      { initCCState with
          pivot := { state := PivotState.Dragging, indicatorVisible := true } }).pivot.state
      = PivotState.Inactive :=
  ⟨rfl,
   (firstPerson_forces_pivot_inactive (.bool true)
      { initCCState with
          pivot := { state := PivotState.Dragging, indicatorVisible := true } } rfl).2.1⟩

/-- Claim C9: every boolean configuration field holds a strict boolean
after any setter call — `pivoting`, `planView`, `firstPerson`,
`constrainVertical`, `dollyToPointer`, `dollyToPivot` and
`pointerEnabled` store the truthiness of their argument, while `active`,
`doublePickFlyTo` and `panRightClick` store `true` for every argument
other than the exact boolean `false`. -/
theorem boolean_setter_coercions (v : JSVal) (s : CCState) :
    (set_pivoting v s).configs.pivoting = jsTruthy v ∧
    (set_planView v s).configs.planView = jsTruthy v ∧
    (set_firstPerson v s).configs.firstPerson = jsTruthy v ∧
    (set_constrainVertical v s).configs.constrainVertical = jsTruthy v ∧
    (set_dollyToPointer v s).configs.dollyToPointer = jsTruthy v ∧
    (set_dollyToPivot v s).configs.dollyToPivot = jsTruthy v ∧
    (set_pointerEnabled v s).configs.pointerEnabled = jsTruthy v ∧
    (set_active v s).configs.active = jsStrictNeqFalse v ∧
    (set_doublePickFlyTo v s).configs.doublePickFlyTo = jsStrictNeqFalse v ∧
    (set_panRightClick v s).configs.panRightClick = jsStrictNeqFalse v ∧
    (jsStrictNeqFalse v = true ↔ v ≠ JSVal.bool false) := by
  refine ⟨rfl, rfl, ?_, rfl, ?_, ?_, rfl, rfl, rfl, rfl, ?_⟩
  · by_cases hv : jsTruthy v = true <;> simp [set_firstPerson, hv]
  · by_cases hv : jsTruthy v = true <;> simp [set_dollyToPointer, hv]
  · by_cases hv : jsTruthy v = true <;> simp [set_dollyToPivot, hv]
  · cases v with
    | bool b => cases b <;> simp [jsStrictNeqFalse]
    | undef => simp [jsStrictNeqFalse]
    | null => simp [jsStrictNeqFalse]
    | num q => simp [jsStrictNeqFalse]
    | nan => simp [jsStrictNeqFalse]
    | str t => simp [jsStrictNeqFalse]

/-- Counterexample for claim C4: `undefined` is a value that is neither
`"qwerty"` nor `"azerty"`, yet writing it to `keyboardLayout` emits no
warning — the `value || "qwerty"` normalization silently replaces every
falsy argument with `"qwerty"` before the validity check runs. -/
theorem keyboardLayout_undefined_no_warning :
    (set_keyboardLayout none initCCState).warnings = initCCState.warnings ∧
    (set_keyboardLayout none initCCState).configs.keyboardLayout = qwerty := by
  refine ⟨by decide, by decide⟩

/-- Claim C4 (amended): a falsy argument (`undefined`, `null`, the empty
string) is silently normalized to `"qwerty"` with no warning; a truthy
argument that is neither `"qwerty"` nor `"azerty"` stores `"qwerty"` and
emits one warning; `"qwerty"` and `"azerty"` themselves are stored
unchanged with no warning. -/
theorem keyboardLayout_validation (v : Option String) (s : CCState) :
    (kbFalsy v = true →
      (set_keyboardLayout v s).configs.keyboardLayout = qwerty ∧
      (set_keyboardLayout v s).warnings = s.warnings) ∧
    (∀ t : String, v = some t → t ≠ "" → t ≠ qwerty → t ≠ azerty →
      (set_keyboardLayout v s).configs.keyboardLayout = qwerty ∧
      (set_keyboardLayout v s).warnings = s.warnings + 1) ∧
    (v = some qwerty →
      (set_keyboardLayout v s).configs.keyboardLayout = qwerty ∧
      (set_keyboardLayout v s).warnings = s.warnings) ∧
    (v = some azerty →
      (set_keyboardLayout v s).configs.keyboardLayout = azerty ∧
      (set_keyboardLayout v s).warnings = s.warnings) := by
  refine ⟨?_, ?_, ?_, ?_⟩
  · intro hf
    cases v with
    | none =>
      rw [set_keyboardLayout, if_neg (by decide)]
      exact ⟨rfl, rfl⟩
    | some t =>
      have ht : t = "" := by simpa [kbFalsy] using hf
      subst ht
      rw [set_keyboardLayout, if_neg (by decide)]
      exact ⟨rfl, rfl⟩
  · intro t hvt ht hq ha
    subst hvt
    have h1 : jsOrQwerty (some t) = t := by simp [jsOrQwerty, ht]
    rw [set_keyboardLayout]
    rw [if_pos ?side]
    case side => rw [h1]; exact ⟨hq, ha⟩
    exact ⟨rfl, rfl⟩
  · intro hv
    subst hv
    rw [set_keyboardLayout, if_neg (by decide)]
    exact ⟨(by decide : jsOrQwerty (some qwerty) = qwerty), rfl⟩
  · intro hv
    subst hv
    rw [set_keyboardLayout, if_neg (by decide)]
    exact ⟨(by decide : jsOrQwerty (some azerty) = azerty), rfl⟩

/-- Witness for claim C4 at a concrete input: writing the truthy invalid
value `"dvorak"` stores `"qwerty"` and emits one warning. -/
theorem keyboardLayout_validation_witness :
    (set_keyboardLayout (some dvorak) initCCState).configs.keyboardLayout = qwerty ∧
    (set_keyboardLayout (some dvorak) initCCState).warnings = initCCState.warnings + 1 :=
  (keyboardLayout_validation (some dvorak) initCCState).2.1 dvorak rfl
    (by decide) (by decide) (by decide)

/-- Counterexample for claim C5: `set dollyToPointer` is neither the
`active` nor the `pointerEnabled` setter, yet from a state with
`dollyToPivot = true` it flips `dollyToPivot` — state outside its own
configuration field — to `false`. -/
theorem setter_side_effect_counterexample :
    c5pre.configs.dollyToPivot = true ∧
    (set_dollyToPointer (.bool true) c5pre).configs.dollyToPivot = false := by
  refine ⟨rfl, rfl⟩

/-- Claim C5 (amended): every configuration setter stores only its own
validated value, except: `active` and `pointerEnabled` additionally run
`_reset()` on the pending-update accumulator before storing;
`dollyToPointer` and `dollyToPivot` each clear the other flag when set
truthy; `firstPerson` additionally hides and ends the pivot when set
truthy; and `keyboardLayout` may additionally log a warning.  Each
conjunct characterizes one setter's complete effect on the state. -/
theorem config_setter_frame (s : CCState) :
    (∀ v, set_pivoting v s =
      { s with configs := { s.configs with pivoting := jsTruthy v } }) ∧
    (∀ v, set_planView v s =
      { s with configs := { s.configs with planView := jsTruthy v } }) ∧
    (∀ v, set_constrainVertical v s =
      { s with configs := { s.configs with constrainVertical := jsTruthy v } }) ∧
    (∀ v, set_doublePickFlyTo v s =
      { s with configs := { s.configs with doublePickFlyTo := jsStrictNeqFalse v } }) ∧
    (∀ v, set_panRightClick v s =
      { s with configs := { s.configs with panRightClick := jsStrictNeqFalse v } }) ∧
    (∀ v, set_rotationInertia v s =
      { s with configs := { s.configs with rotationInertia := v.getD (1/2) } }) ∧
    (∀ v, set_dollyInertia v s =
      { s with configs := { s.configs with dollyInertia := v.getD (1/2) } }) ∧
    (∀ v, set_dollyRate v s =
      { s with configs := { s.configs with dollyRate := dollyRateValue v } }) ∧
    (∀ v, set_active v s =
      { s with configs := { s.configs with active := jsStrictNeqFalse v },
               updates := resetUpdates s.updates }) ∧
    (∀ v, set_pointerEnabled v s =
      { s with configs := { s.configs with pointerEnabled := jsTruthy v },
               updates := resetUpdates s.updates }) ∧
    (∀ v, set_dollyToPointer v s =
      { s with configs := { s.configs with
                 dollyToPointer := jsTruthy v,
                 dollyToPivot := if jsTruthy v then false else s.configs.dollyToPivot } }) ∧
    (∀ v, set_dollyToPivot v s =
      { s with configs := { s.configs with
                 dollyToPivot := jsTruthy v,
                 dollyToPointer := if jsTruthy v then false else s.configs.dollyToPointer } }) ∧
    (∀ v, set_firstPerson v s =
      { s with configs := { s.configs with firstPerson := jsTruthy v },
               pivot := if jsTruthy v then endPivot (hidePivot s.pivot) else s.pivot }) ∧
    (∀ v, set_keyboardLayout v s =
      { s with configs := { s.configs with
                 keyboardLayout := (set_keyboardLayout v s).configs.keyboardLayout },
               warnings := (set_keyboardLayout v s).warnings }) := by
  refine ⟨fun v => rfl, fun v => rfl, fun v => rfl, fun v => rfl, fun v => rfl,
          fun v => rfl, fun v => rfl, fun v => rfl, fun v => rfl, fun v => rfl,
          ?_, ?_, ?_, ?_⟩
  · intro v
    by_cases hv : jsTruthy v = true <;> simp [set_dollyToPointer, hv]
  · intro v
    by_cases hv : jsTruthy v = true <;> simp [set_dollyToPivot, hv]
  · intro v
    by_cases hv : jsTruthy v = true <;> simp [set_firstPerson, hv]
  · intro v
    rw [set_keyboardLayout]
    split <;> rfl

/-- Claim C8: after any write to `dollyRate` the stored value is never
zero — every falsy argument (`undefined`, `null`, `NaN`, `0`) stores the
default `10.0`, and every nonzero number is stored unchanged. -/
theorem dollyRate_nonzero (v : JSNum) (s : CCState) :
    (set_dollyRate v s).configs.dollyRate ≠ 0 ∧
    (jsNumTruthy v = false → (set_dollyRate v s).configs.dollyRate = 10) ∧
    (∀ q : ℚ, v = JSNum.num q → q ≠ 0 →
      (set_dollyRate v s).configs.dollyRate = q) := by
  refine ⟨?_, ?_, ?_⟩
  · cases v with
    | num q => by_cases hq : q = 0 <;> simp [set_dollyRate, dollyRateValue, hq]
    | undef => simp [set_dollyRate, dollyRateValue]
    | null => simp [set_dollyRate, dollyRateValue]
    | nan => simp [set_dollyRate, dollyRateValue]
  · intro hf
    cases v with
    | num q =>
      have hq : q = 0 := by simpa [jsNumTruthy] using hf
      simp [set_dollyRate, dollyRateValue, hq]
    | undef => simp [set_dollyRate, dollyRateValue]
    | null => simp [set_dollyRate, dollyRateValue]
    | nan => simp [set_dollyRate, dollyRateValue]
  · intro q hvq hq
    subst hvq
    simp [set_dollyRate, dollyRateValue, hq]

/-- Witness for claim C8 at a concrete input: writing the truthy number
`5` stores `5`. -/
theorem dollyRate_nonzero_witness :
    (set_dollyRate (JSNum.num 5) initCCState).configs.dollyRate = 5 :=
  (dollyRate_nonzero (JSNum.num 5) initCCState).2.2 5 rfl (by norm_num)

-- The `castShadow` setter is a no-op whenever the coerced argument
-- already equals the stored flag.
theorem setCastShadow_noop (v : JSVal) (t : SpotState)
    (hv : jsTruthy v = t.castShadow) : setCastShadow v t = t := by
  simp [setCastShadow, hv]

-- After any `castShadow` write, the stored flag equals the coerced
-- argument.
theorem setCastShadow_result (v : JSVal) (t : SpotState) :
    (setCastShadow v t).castShadow = jsTruthy v := by
  by_cases hb : t.castShadow = jsTruthy v <;> simp [setCastShadow, hb]

/-- Claim C10: the `SpotLight.castShadow` setter is a no-op when the
boolean coercion of its argument equals the stored flag — no field
changes, no dirty mark, no redraw request, no fired event — and writing
the same value twice in a row equals writing it once. -/
theorem castShadow_noop_idempotent (v : JSVal) (s : SpotState) :
    (jsTruthy v = s.castShadow → setCastShadow v s = s) ∧
    setCastShadow v (setCastShadow v s) = setCastShadow v s := by
  refine ⟨setCastShadow_noop v s, ?_⟩
  exact setCastShadow_noop v (setCastShadow v s) (setCastShadow_result v s).symm

/-- Witness for claim C10 at a concrete input: writing `false` (coerced
from the boolean `false`) to a fresh `SpotLight`, whose stored flag is
already `false`, leaves the state unchanged. -/
theorem castShadow_noop_idempotent_witness :
    jsTruthy (.bool false) = initSpot.castShadow ∧
    setCastShadow (.bool false) initSpot = initSpot :=
  ⟨rfl, (castShadow_noop_idempotent (.bool false) initSpot).1 rfl⟩

-- Stepping a residual of zero yields zero (the epsilon cutoff fires).
theorem inertiaStep_zero (f ε : ℚ) (hε : 0 < ε) : inertiaStep f ε 0 = 0 := by
  simp [inertiaStep, hε]

-- After n ticks with no new input the residual is either exactly
-- initial_delta * f^n or already epsilon-zeroed.
theorem inertiaIter_shape (f ε d : ℚ) (hε : 0 < ε) (n : ℕ) :
    inertiaIter f ε n d = 0 ∨ inertiaIter f ε n d = d * f ^ n := by
  induction n with
  | zero => right; simp [inertiaIter]
  | succ n ih =>
    cases ih with
    | inl h0 =>
      left
      simp [inertiaIter, h0, inertiaStep_zero f ε hε]
    | inr he =>
      rw [inertiaIter, he, inertiaStep]
      split
      · left; rfl
      · right; ring
-- Once the residual is epsilon-zeroed it stays zeroed on every later
-- tick.
theorem inertiaIter_zero_stable (f ε d : ℚ) (hε : 0 < ε) (n : ℕ)
    (h : inertiaIter f ε n d = 0) :
    ∀ m, n ≤ m → inertiaIter f ε m d = 0 := by
  intro m hm
  induction m, hm using Nat.le_induction with
  | base => exact h
  | succ m hm ih =>
    rw [inertiaIter, ih]
    exact inertiaStep_zero f ε hε

/-- Claim C6: for every inertia factor `f ∈ [0,1)`, epsilon cutoff
`ε > 0` and nonzero initial delta `d`, repeated per-tick inertia decay
with no new input keeps the residual at exactly `d * f^n` until the
cutoff zeroes it, is zeroed from some tick on, and for `f = 0` is zeroed
after exactly one tick. -/
theorem inertia_decay_converges (f ε d : ℚ) (h0 : 0 ≤ f) (h1 : f < 1)
    (hε : 0 < ε) (hd : d ≠ 0) :
    (∀ n, inertiaIter f ε n d = 0 ∨ inertiaIter f ε n d = d * f ^ n) ∧
    (∃ N, ∀ m, N ≤ m → inertiaIter f ε m d = 0) ∧
    (f = 0 → inertiaIter f ε 1 d = 0) := by
  refine ⟨fun n => inertiaIter_shape f ε d hε n, ?_, ?_⟩
  · obtain ⟨n, hn⟩ := exists_pow_lt_of_lt_one
      (div_pos hε (abs_pos.mpr hd)) h1
    have hdf : |d| * f ^ n < ε := by
      rw [mul_comm]
      exact (lt_div_iff₀ (abs_pos.mpr hd)).mp hn
    refine ⟨n + 1, inertiaIter_zero_stable f ε d hε (n + 1) ?_⟩
    cases inertiaIter_shape f ε d hε n with
    | inl h =>
      rw [inertiaIter, h]
      exact inertiaStep_zero f ε hε
    | inr h =>
      rw [inertiaIter, h, inertiaStep, if_pos]
      calc |d * f ^ n * f| = |d| * f ^ n * f := by
            rw [abs_mul, abs_mul, abs_pow, abs_of_nonneg h0]
        _ ≤ |d| * f ^ n * 1 := by
            refine mul_le_mul_of_nonneg_left h1.le ?_
            positivity
        _ = |d| * f ^ n := mul_one _
        _ < ε := hdf
  · intro hf
    subst hf
    simp [inertiaIter, inertiaStep, hε]

/-- Witness for claim C6 at a concrete input: with `f = 0`, `ε = 1` and
initial delta `5`, the residual is zeroed after exactly one tick. -/
theorem inertia_decay_converges_witness :
    inertiaIter 0 1 1 5 = 0 :=
  (inertia_decay_converges 0 1 5 (by norm_num) (by norm_num)
    (by norm_num) (by norm_num)).2.2 rfl

/-- Claim C7: with the default configuration table of the source
(`tapInterval = 150`, `tapDistanceThreshold = 4`), a press/release pair
is classified as a tap iff its displacement is below 4 pixels and its
duration below 150 ms; in particular a zero-displacement release at
100 ms is a tap and one at 200 ms is not. -/
theorem tap_classification :
    (∀ dispPx elapsedMs : ℚ,
      isTap initCCState.configs dispPx elapsedMs = true ↔
        dispPx < 4 ∧ elapsedMs < 150) ∧
    isTap initCCState.configs 0 100 = true ∧
    isTap initCCState.configs 0 200 = false := by
  refine ⟨?_, by decide, by decide⟩
  intro d t
  show (decide (d < 4) && decide (t < 150)) = true ↔ d < 4 ∧ t < 150
  simp
